import Mathlib

/-!
A verification development for the orders_wallet repository.

The Python domain layer (`main/domain/wallet.py`, `main/domain/order.py`),
the wallet repository validation (`main/infra/repositories.py`), the event
store sequencing (`main/infra/event_store.py`), the idempotency layer
(`main/api/views.py`), the projector handlers (`main/infra/projector.py`)
and the capture/refund services (`main/services.py`,
`main/services/compensation.py`) are embedded as pure Lean functions.

Modelling conventions:
* Python `Decimal` amounts are embedded as `ℚ`: every arithmetic operation
  performed by the code (addition, subtraction, multiplication by
  `Decimal("0.05")`, comparison against `Decimal("0.01")`) is exact in
  `Decimal` for the values involved, so `ℚ` is a faithful carrier.
* UUIDs are embedded as `Nat` identifiers; `uuid4` freshness plays no role
  in the verified properties, so generated ids are dropped from
  transaction values.
* Python `raise ValueError` is embedded as `Except.error` with a dedicated
  error constructor per distinct raise site kind.  A method that raises
  before mutating `self` is embedded as a function returning
  `Except Err (newState × result)`: the error branch carries no new state,
  which is exactly the Python behaviour of leaving the object unchanged.
* f-string descriptions are replaced by fixed string literals; no verified
  property depends on the interpolated text.
-/

namespace OrdersWallet

/-- Error kinds corresponding to the distinct `ValueError` raise sites of
the Python code, plus the conflict outcome of the idempotency layer. -/
inductive Err where
  | amountNotPositive
  | insufficientBalance
  | notDraft
  | emptyOrder
  | notPending
  | notPaid
  | cancelTerminal
  | invalidState
  | negativeBalance
  | balanceMismatch
deriving DecidableEq, Repr

/-- Embeds `TransactionType` from `main/domain/wallet.py`. -/
inductive TransactionType where
  | DEBIT
  | CREDIT
deriving DecidableEq, Repr

/-- Embeds `WalletTransaction` from `main/domain/wallet.py` (the generated uuid is
dropped; the constructor's `amount > 0` check is enforced at the two call
sites `Wallet.debit` / `Wallet.credit`, which check positivity first). -/
structure WalletTransaction where
  wallet_id : Nat
  transaction_type : TransactionType
  amount : ℚ
  order_id : Option Nat
  description : String
deriving DecidableEq, Repr

/-- Embeds `Wallet` from `main/domain/wallet.py`: `_balance` and `_transactions`. -/
structure Wallet where
  id : Nat
  customer_id : Nat
  balance : ℚ
  transactions : List WalletTransaction
deriving DecidableEq, Repr

/-- Embeds `Wallet.debit`: rejects `amount <= 0`, then `balance < amount`
(insufficient balance); otherwise appends a DEBIT transaction and
subtracts the amount from the balance. -/
def Wallet.debit (w : Wallet) (amount : ℚ) (order_id : Option Nat)
    (description : String) : Except Err (Wallet × WalletTransaction) :=
  if amount ≤ 0 then
    .error .amountNotPositive
  else if w.balance < amount then
    .error .insufficientBalance
  else
    let t : WalletTransaction :=
      ⟨w.id, .DEBIT, amount, order_id, description⟩
    .ok ({ w with balance := w.balance - amount,
                  transactions := w.transactions ++ [t] }, t)

/-- Embeds `Wallet.credit`: rejects `amount <= 0`; otherwise appends a CREDIT
transaction and adds the amount to the balance. -/
def Wallet.credit (w : Wallet) (amount : ℚ) (order_id : Option Nat)
    (description : String) : Except Err (Wallet × WalletTransaction) :=
  if amount ≤ 0 then
    .error .amountNotPositive
  else
    let t : WalletTransaction :=
      ⟨w.id, .CREDIT, amount, order_id, description⟩
    .ok ({ w with balance := w.balance + amount,
                  transactions := w.transactions ++ [t] }, t)

/-- Embeds `Wallet.calculate_balance_from_transactions`: fold over the transaction
list starting from `Decimal("0.00")`, adding CREDIT amounts and
subtracting DEBIT amounts. -/
def Wallet.calculate_balance_from_transactions (w : Wallet) : ℚ :=
  w.transactions.foldl
    (fun b t =>
      match t.transaction_type with
      | .CREDIT => b + t.amount
      | .DEBIT => b - t.amount) 0

/-- Embeds `OrderStatus` from `main/domain/order.py`. -/
inductive OrderStatus where
  | DRAFT
  | PENDING
  | PAID
  | REFUNDED
  | CANCELLED
deriving DecidableEq, Repr

/-- The `.value` string of an `OrderStatus` member. -/
def OrderStatus.value : OrderStatus → String
  | .DRAFT => "DRAFT"
  | .PENDING => "PENDING"
  | .PAID => "PAID"
  | .REFUNDED => "REFUNDED"
  | .CANCELLED => "CANCELLED"

/-- Embeds `OrderItem` from `main/domain/order.py` (constructor validation
`quantity > 0`, `price >= 0` is performed by `Order.add_item`, the only
constructing code path relevant here). -/
structure OrderItem where
  product_id : Nat
  quantity : ℤ
  price : ℚ
deriving DecidableEq, Repr

/-- Embeds `OrderItem.subtotal = price * quantity`. -/
def OrderItem.subtotal (it : OrderItem) : ℚ :=
  it.price * it.quantity

/-- Embeds `Order` from `main/domain/order.py`. -/
structure Order where
  id : Nat
  customer_id : Nat
  items : List OrderItem
  status : OrderStatus
deriving DecidableEq, Repr

/-- Embeds `Order.total_amount = sum(item.subtotal for item in self._items)`. -/
def Order.total_amount (o : Order) : ℚ :=
  o.items.foldl (fun acc it => acc + it.subtotal) 0

/-- Embeds `Order.confirm`: DRAFT with a non-empty item list moves to PENDING. -/
def Order.confirm (o : Order) : Except Err Order :=
  if o.status ≠ OrderStatus.DRAFT then
    .error .notDraft
  else if o.items.isEmpty then
    .error .emptyOrder
  else
    .ok { o with status := OrderStatus.PENDING }

/-- Embeds `Order.mark_paid`: PENDING moves to PAID. -/
def Order.mark_paid (o : Order) : Except Err Order :=
  if o.status ≠ OrderStatus.PENDING then
    .error .notPending
  else
    .ok { o with status := OrderStatus.PAID }

/-- Embeds `Order.mark_refunded`: PAID moves to REFUNDED. -/
def Order.mark_refunded (o : Order) : Except Err Order :=
  if o.status ≠ OrderStatus.PAID then
    .error .notPaid
  else
    .ok { o with status := OrderStatus.REFUNDED }

/-- Embeds `Order.cancel`: rejected when the status is PAID or REFUNDED, otherwise
sets the status to CANCELLED. -/
def Order.cancel (o : Order) : Except Err Order :=
  if o.status = OrderStatus.PAID ∨ o.status = OrderStatus.REFUNDED then
    .error .cancelTerminal
  else
    .ok { o with status := OrderStatus.CANCELLED }

/-- The validation part of `WalletRepository.save`
(`main/infra/repositories.py`): reject a negative declared balance, then
reject a declared balance deviating from the replayed balance by more than
`Decimal("0.01")`; otherwise the save proceeds (the ORM writes cannot fail
in the model). -/
def WalletRepository.save (w : Wallet) : Except Err Unit :=
  if w.balance < 0 then
    .error .negativeBalance
  else if 1 / 100 < |w.balance - w.calculate_balance_from_transactions| then
    .error .balanceMismatch
  else
    .ok ()

/-- A single wallet mutation of the kind replayed in the property-based
invariant test: one `Wallet.debit` or `Wallet.credit` call. -/
inductive WalletOp where
  | debit (amount : ℚ)
  | credit (amount : ℚ)
deriving DecidableEq, Repr

/-- Run one wallet operation, keeping only the mutated wallet. -/
def applyOp (w : Wallet) : WalletOp → Except Err Wallet
  | .debit a =>
    match w.debit a none ("") with
    | .error e => .error e
    | .ok (w', _) => .ok w'
  | .credit a =>
    match w.credit a none ("") with
    | .error e => .error e
    | .ok (w', _) => .ok w'

/-- Run a sequence of wallet operations; the first failure aborts the run,
matching a raised `ValueError`. -/
def applyOps (w : Wallet) : List WalletOp → Except Err Wallet
  | [] => .ok w
  | op :: rest =>
    match applyOp w op with
    | .error e => .error e
    | .ok w' => applyOps w' rest

/-- One stored row of `EventStore` (`main/infra/event_store.py`),
restricted to the columns driving sequence assignment. -/
structure EventRow where
  aggregate_id : Nat
  aggregate_type : String
  sequence_number : Nat
deriving DecidableEq, Repr

/-- The sequence numbers already stored for one aggregate, in insertion
order (the filter of the events table on `aggregate_id, aggregate_type`). -/
def seqsFor (rows : List EventRow) (aid : Nat) (aty : String) : List Nat :=
  (rows.filter
    (fun r => r.aggregate_id == aid && r.aggregate_type == aty)).map
    (fun r => r.sequence_number)

/-- The `order_by("-sequence_number").first()` lookup of
`EventStoreRepository.save_event`: the largest stored sequence number for
the aggregate, with 0 standing for "no event yet" (so that `+ 1` yields
the code's initial value 1). -/
def lastSeq (rows : List EventRow) (aid : Nat) (aty : String) : Nat :=
  (seqsFor rows aid aty).foldr max 0

/-- Embeds `EventStoreRepository.save_event`: append a row whose sequence number
is the last stored sequence number for the aggregate plus one. -/
def save_event (rows : List EventRow) (aid : Nat) (aty : String) :
    List EventRow :=
  rows ++ [⟨aid, aty, lastSeq rows aid aty + 1⟩]

/-- Replay a list of `save_event` calls against an initially empty events
table. -/
def replayEvents (calls : List (Nat × String)) : List EventRow :=
  calls.foldl (fun st c => save_event st c.1 c.2) []

/-- Embeds the `OrderSummary` read-model row (`main/infra/read_models.py`); the
timestamp column is a `Nat` tick. -/
structure OrderSummary where
  customer_id : Nat
  customer_name : String
  status : String
  total_amount : ℚ
  items_count : Nat
  created_at_read : Nat
deriving DecidableEq, Repr

/-- Embeds the `WalletView` read-model row (`main/infra/read_models.py`). -/
structure WalletView where
  customer_id : Nat
  balance : ℚ
  transactions_count : Nat
  last_transaction_at : Option Nat
deriving DecidableEq, Repr

/-- Embeds `Projector._handle_order_created`: an `update_or_create` writing every
column of the row from the event, so the existing row (if any) is fully
overwritten. -/
def handle_order_created (existing : Option OrderSummary)
    (customer_id : Nat) (customer_name : String) (total_amount : ℚ)
    (items_count : Nat) (now : Nat) : OrderSummary :=
  match existing with
  | some _ => ⟨customer_id, customer_name, "DRAFT", total_amount,
              items_count, now⟩
  | none => ⟨customer_id, customer_name, "DRAFT", total_amount,
            items_count, now⟩

/-- Embeds `Projector._handle_order_paid`: a `filter(id=...).update(status="PAID")`
touches the row only when it exists. -/
def handle_order_paid (existing : Option OrderSummary) :
    Option OrderSummary :=
  existing.map (fun s => { s with status := "PAID" })

/-- Embeds `Projector._handle_order_confirmed`: a
`filter(id=...).update(status="PENDING")` touching the row only when it
exists. -/
def handle_order_confirmed (existing : Option OrderSummary) :
    Option OrderSummary :=
  existing.map (fun s => { s with status := "PENDING" })

/-- Embeds `Projector._handle_order_refunded`: a
`filter(id=...).update(status="REFUNDED")` touching the row only when it
exists. -/
def handle_order_refunded (existing : Option OrderSummary) :
    Option OrderSummary :=
  existing.map (fun s => { s with status := "REFUNDED" })

/-- Embeds `Projector._handle_order_cancelled`: a
`filter(id=...).update(status="CANCELLED")` touching the row only when it
exists. -/
def handle_order_cancelled (existing : Option OrderSummary) :
    Option OrderSummary :=
  existing.map (fun s => { s with status := "CANCELLED" })

/-- Embeds `Projector._handle_wallet_created`: an `update_or_create` writing
`customer_id`, `balance = 0`, `transactions_count = 0` (the
`last_transaction_at` column is not among the defaults, so it is kept on
an existing row). -/
def handle_wallet_created (existing : Option WalletView)
    (customer_id : Nat) : WalletView :=
  match existing with
  | some v => { v with customer_id := customer_id, balance := 0,
                       transactions_count := 0 }
  | none => ⟨customer_id, 0, 0, none⟩

/-- Embeds `Projector._handle_wallet_debited`: fetch the row (creating a zeroed
one if absent, under the wallet's customer id), then set the balance to
the event's `new_balance`, increment `transactions_count`, and stamp
`last_transaction_at`. -/
def handle_wallet_debited (existing : Option WalletView)
    (wallet_customer_id : Nat) (new_balance : ℚ) (now : Nat) : WalletView :=
  let wv :=
    match existing with
    | some v => v
    | none => (⟨wallet_customer_id, 0, 0, none⟩ : WalletView)
  { wv with balance := new_balance,
            transactions_count := wv.transactions_count + 1,
            last_transaction_at := some now }

/-- Embeds `Projector._handle_wallet_credited`: identical shape to the debited
handler (the balance comes from the event's `new_balance`). -/
def handle_wallet_credited (existing : Option WalletView)
    (wallet_customer_id : Nat) (new_balance : ℚ) (now : Nat) : WalletView :=
  let wv :=
    match existing with
    | some v => v
    | none => (⟨wallet_customer_id, 0, 0, none⟩ : WalletView)
  { wv with balance := new_balance,
            transactions_count := wv.transactions_count + 1,
            last_transaction_at := some now }

/-- One row of the `IdempotencyKey` table
(`main/infra/models/service_models/models/idempotency_key.py`). -/
structure IdempotencyRecord where
  key : String
  user_id : Nat
  operation : String
  request_hash : String
  response_payload : String
deriving DecidableEq, Repr

/-- An HTTP response as seen by the idempotency layer: a status code and a
serialized body. -/
structure HttpResponse where
  status_code : Nat
  body : String
deriving DecidableEq, Repr

/-- The 409 response built for an idempotency-key conflict in
`OrdersWalletGraphQLView.dispatch`. -/
def conflictResponse : HttpResponse :=
  ⟨409, "DUPLICATE_REQUEST"⟩

/-- The `IdempotencyKey.objects.filter(key=..., user_id=...,
operation=...).first()` lookup. -/
def findRecord (store : List IdempotencyRecord) (key : String)
    (user : Nat) (op : String) : Option IdempotencyRecord :=
  store.find? (fun r => r.key == key && r.user_id == user && r.operation == op)

/-- The idempotency logic of `OrdersWalletGraphQLView.dispatch` for a POST
mutation carrying an idempotency key and a valid actor id.  `exec` is the
response `_process_graphql_request` would produce; the returned `Bool`
records whether that call was made.  A cached hit returns the stored
payload (HTTP 200); a hash mismatch returns the 409 conflict; otherwise
the request is executed and the record is stored only for a 200 result. -/
def dispatchMutation (store : List IdempotencyRecord) (key : String)
    (user : Nat) (op : String) (request_hash : String)
    (exec : HttpResponse) : HttpResponse × List IdempotencyRecord × Bool :=
  match findRecord store key user op with
  | some r =>
    if r.request_hash == request_hash then
      (⟨200, r.response_payload⟩, store, false)
    else
      (conflictResponse, store, false)
  | none =>
    if exec.status_code == 200 then
      (exec, store ++ [⟨key, user, op, request_hash, exec.body⟩], true)
    else
      (exec, store, true)

/-- The response dictionary of `OrderService.capture_payment`. -/
structure CaptureResult where
  order_id : Nat
  status : String
  amount_debited : ℚ
  bonus_credited : ℚ
deriving DecidableEq, Repr

/-- The response dictionary of `RefundService.refund_order`. -/
structure RefundResult where
  order_id : Nat
  status : String
  amount_refunded : ℚ
deriving DecidableEq, Repr

/-- The locked section of `OrderService.capture_payment`
(`main/services.py`): confirm a DRAFT order, require PENDING, debit the
order total, credit the 5% bonus (`Decimal("0.05")` is exactly `5/100`),
mark the order PAID, and run the wallet-save validation.  Lookups,
event/outbox writes and the order save have no failure modes of their
own and are elided. -/
def capture_payment (order : Order) (wallet : Wallet) :
    Except Err (Order × Wallet × CaptureResult) :=
  match (if order.status = OrderStatus.DRAFT then order.confirm
         else .ok order) with
  | .error e => .error e
  | .ok o1 =>
    if o1.status ≠ OrderStatus.PENDING then
      .error .invalidState
    else
      match wallet.debit o1.total_amount (some o1.id) "Payment for order" with
      | .error e => .error e
      | .ok pd =>
        match pd.1.credit (o1.total_amount * (5 / 100)) (some o1.id)
            "Bonus for order" with
        | .error e => .error e
        | .ok pc =>
          match o1.mark_paid with
          | .error e => .error e
          | .ok o2 =>
            match WalletRepository.save pc.1 with
            | .error e => .error e
            | .ok _ =>
              .ok (o2, pc.1,
                   ⟨o2.id, o2.status.value, o2.total_amount,
                    o1.total_amount * (5 / 100)⟩)

/-- The locked section of `RefundService.refund_order`
(`main/services/compensation.py`): require PAID, credit back the order
total, debit the 5% bonus only when `wallet.balance >= bonus_amount`,
mark the order REFUNDED, and run the wallet-save validation. -/
def refund_order (order : Order) (wallet : Wallet) :
    Except Err (Order × Wallet × RefundResult) :=
  if order.status ≠ OrderStatus.PAID then
    .error .invalidState
  else
    match wallet.credit order.total_amount (some order.id)
        "Refund for order" with
    | .error e => .error e
    | .ok pc =>
      match ((if order.total_amount * (5 / 100) ≤ pc.1.balance then
                match pc.1.debit (order.total_amount * (5 / 100))
                    (some order.id) "Bonus compensation" with
                | .error e => .error e
                | .ok pd => .ok pd.1
              else .ok pc.1) : Except Err Wallet) with
      | .error e => .error e
      | .ok w3 =>
        match order.mark_refunded with
        | .error e => .error e
        | .ok o1 =>
          match WalletRepository.save w3 with
          | .error e => .error e
          | .ok _ => .ok (o1, w3, ⟨o1.id, o1.status.value, o1.total_amount⟩)

/-- The end-to-end wallet of §8: a customer whose balance of 1000.00 is
backed by one 1000.00 CREDIT transaction. -/
def c2Wallet : Wallet :=
  ⟨10, 20, 1000, [⟨10, .CREDIT, 1000, none, "Initial"⟩]⟩

/-- The end-to-end order of §8: 2 × 100.00 plus 1 × 50.00, still DRAFT. -/
def c2Order : Order :=
  ⟨30, 20, [⟨1, 2, 100⟩, ⟨2, 1, 50⟩], .DRAFT⟩

/-- The capture step of the end-to-end scenario. -/
def c2Capture : Except Err (Order × Wallet × CaptureResult) :=
  capture_payment c2Order c2Wallet

/-- The refund step of the end-to-end scenario, fed the captured order and
wallet. -/
def c2Refund : Except Err (Order × Wallet × RefundResult) :=
  match c2Capture with
  | .error e => .error e
  | .ok (o1, w1, _) => refund_order o1 w1

end OrdersWallet

namespace OrdersWallet

/-- Helper: successful `Wallet.debit` characterized as an iff. -/
theorem debit_ok_iff {w : Wallet} {a : ℚ} {oid : Option Nat} {d : String}
    {p : Wallet × WalletTransaction} :
    w.debit a oid d = .ok p ↔
      0 < a ∧ a ≤ w.balance ∧
      p = ({ w with balance := w.balance - a,
                    transactions :=
                      w.transactions ++ [⟨w.id, .DEBIT, a, oid, d⟩] },
           (⟨w.id, .DEBIT, a, oid, d⟩ : WalletTransaction)) := by
  unfold Wallet.debit
  split_ifs with h1 h2
  · simp [not_lt.mpr h1]
  · simp only [not_le] at h1
    simp [h1, not_le.mpr h2]
  · simp only [not_le] at h1
    simp only [not_lt] at h2
    simp [h1, h2, eq_comm]

/-- Helper: successful `Wallet.credit` characterized as an iff. -/
theorem credit_ok_iff {w : Wallet} {a : ℚ} {oid : Option Nat} {d : String}
    {p : Wallet × WalletTransaction} :
    w.credit a oid d = .ok p ↔
      0 < a ∧
      p = ({ w with balance := w.balance + a,
                    transactions :=
                      w.transactions ++ [⟨w.id, .CREDIT, a, oid, d⟩] },
           (⟨w.id, .CREDIT, a, oid, d⟩ : WalletTransaction)) := by
  unfold Wallet.credit
  split_ifs with h1
  · simp [not_lt.mpr h1]
  · simp only [not_le] at h1
    simp [h1, eq_comm]

/-- Helper: replayed balance of a wallet with one transaction appended. -/
theorem calc_append_one (w : Wallet) (i c : Nat) (b : ℚ)
    (t : WalletTransaction) :
    (Wallet.mk i c b
        (w.transactions ++ [t])).calculate_balance_from_transactions =
      (match t.transaction_type with
       | .CREDIT => w.calculate_balance_from_transactions + t.amount
       | .DEBIT => w.calculate_balance_from_transactions - t.amount) := by
  unfold Wallet.calculate_balance_from_transactions
  simp [List.foldl_append]

/-- Helper: one successful wallet operation preserves the derived-balance
invariant and non-negativity. -/
theorem applyOp_preserves {w w' : Wallet} {op : WalletOp}
    (hbal : w.balance = w.calculate_balance_from_transactions)
    (hnn : 0 ≤ w.balance) (hop : applyOp w op = .ok w') :
    w'.balance = w'.calculate_balance_from_transactions ∧ 0 ≤ w'.balance := by
  cases op with
  | debit a =>
    simp only [applyOp] at hop
    cases hd : w.debit a none ("") with
    | error e => rw [hd] at hop; cases hop
    | ok p =>
      obtain ⟨pw, pt⟩ := p
      rw [hd] at hop
      simp only [Except.ok.injEq] at hop
      obtain ⟨hpos, hle, hp⟩ := debit_ok_iff.mp hd
      simp only [Prod.mk.injEq] at hp
      subst hop
      rw [hp.1]
      refine ⟨?_, by simpa using sub_nonneg.mpr hle⟩
      show w.balance - a = _
      rw [calc_append_one w, hbal]
  | credit a =>
    simp only [applyOp] at hop
    cases hd : w.credit a none ("") with
    | error e => rw [hd] at hop; cases hop
    | ok p =>
      obtain ⟨pw, pt⟩ := p
      rw [hd] at hop
      simp only [Except.ok.injEq] at hop
      obtain ⟨hpos, hp⟩ := credit_ok_iff.mp hd
      simp only [Prod.mk.injEq] at hp
      subst hop
      rw [hp.1]
      constructor
      · show w.balance + a = _
        rw [calc_append_one w, hbal]
      · show 0 ≤ w.balance + a
        positivity

/-- Claim C1 (amended): for every wallet whose declared balance equals the
replayed balance `Σ credits − Σ debits` and is non-negative, after any
sequence of successful `Wallet.debit` / `Wallet.credit` calls the balance
still equals the replayed balance and remains non-negative — and since
every prefix of such a sequence is itself such a sequence, the balance is
non-negative at every point of the run. -/
theorem wallet_invariant_preserved (ops : List WalletOp) :
    ∀ (w w' : Wallet),
      w.balance = w.calculate_balance_from_transactions →
      0 ≤ w.balance →
      applyOps w ops = .ok w' →
      w'.balance = w'.calculate_balance_from_transactions ∧
        0 ≤ w'.balance := by
  induction ops with
  | nil =>
    intro w w' h1 h2 h3
    unfold applyOps at h3
    simp only [Except.ok.injEq] at h3
    subst h3
    exact ⟨h1, h2⟩
  | cons op rest ih =>
    intro w w' h1 h2 h3
    unfold applyOps at h3
    cases hop : applyOp w op with
    | error e => rw [hop] at h3; cases h3
    | ok wm =>
      rw [hop] at h3
      obtain ⟨hb, hn⟩ := applyOp_preserves h1 h2 hop
      exact ih wm w' hb hn h3

/-- Witness for C1: a wallet with balance 5 backed by one CREDIT 5, after
the successful run `[debit 2]`, has balance 3 which again equals the
replayed balance and is non-negative. -/
theorem wallet_invariant_preserved_witness :
    ((⟨1, 1, 5, [⟨1, .CREDIT, 5, none, "w"⟩]⟩ : Wallet).balance =
      (⟨1, 1, 5, [⟨1, .CREDIT, 5, none, "w"⟩]⟩ :
        Wallet).calculate_balance_from_transactions) ∧
    (0 ≤ (⟨1, 1, 5, [⟨1, .CREDIT, 5, none, "w"⟩]⟩ : Wallet).balance) ∧
    (applyOps ⟨1, 1, 5, [⟨1, .CREDIT, 5, none, "w"⟩]⟩ [.debit 2] =
      .ok ⟨1, 1, 3, [⟨1, .CREDIT, 5, none, "w"⟩, ⟨1, .DEBIT, 2, none, ""⟩]⟩) ∧
    ((⟨1, 1, 3, [⟨1, .CREDIT, 5, none, "w"⟩, ⟨1, .DEBIT, 2, none, ""⟩]⟩ :
        Wallet).balance =
      (⟨1, 1, 3, [⟨1, .CREDIT, 5, none, "w"⟩, ⟨1, .DEBIT, 2, none, ""⟩]⟩ :
        Wallet).calculate_balance_from_transactions ∧
      0 ≤ (⟨1, 1, 3, [⟨1, .CREDIT, 5, none, "w"⟩, ⟨1, .DEBIT, 2, none, ""⟩]⟩ :
        Wallet).balance) := by
  have h1 : (⟨1, 1, 5, [⟨1, .CREDIT, 5, none, "w"⟩]⟩ : Wallet).balance =
      (⟨1, 1, 5, [⟨1, .CREDIT, 5, none, "w"⟩]⟩ :
        Wallet).calculate_balance_from_transactions := by
    norm_num [Wallet.calculate_balance_from_transactions]
  have h2 : (0 : ℚ) ≤ (⟨1, 1, 5, [⟨1, .CREDIT, 5, none, "w"⟩]⟩ :
      Wallet).balance := by norm_num
  have h3 : applyOps ⟨1, 1, 5, [⟨1, .CREDIT, 5, none, "w"⟩]⟩ [.debit 2] =
      .ok ⟨1, 1, 3, [⟨1, .CREDIT, 5, none, "w"⟩, ⟨1, .DEBIT, 2, none, ""⟩]⟩ := by
    norm_num [applyOps, applyOp, Wallet.debit]
  exact ⟨h1, h2, h3,
    wallet_invariant_preserved [.debit 2] _ _ h1 h2 h3⟩

/-- Counterexample to claim C1 as stated: the wallet with declared balance
−5 and one DEBIT 5 transaction satisfies the claim's hypothesis (its
balance equals the replayed balance), and the one-call sequence
`[credit 3]` succeeds, yet the balance after it is −2 < 0. -/
theorem wallet_invariant_counterexample :
    ((⟨2, 2, -5, [⟨2, .DEBIT, 5, none, "x"⟩]⟩ : Wallet).balance =
      (⟨2, 2, -5, [⟨2, .DEBIT, 5, none, "x"⟩]⟩ :
        Wallet).calculate_balance_from_transactions) ∧
    ((applyOps ⟨2, 2, -5, [⟨2, .DEBIT, 5, none, "x"⟩]⟩
        [.credit 3]).map Wallet.balance = .ok (-2)) ∧
    ((-2 : ℚ) < 0) := by
  refine ⟨by norm_num [Wallet.calculate_balance_from_transactions], ?_,
    by norm_num⟩
  norm_num [applyOps, applyOp, Wallet.credit, Except.map]

/-- Claim C8: the `WalletRepository.save` validation rejects a wallet with
negative declared balance (as `negativeBalance`), rejects one whose
declared balance deviates from the replayed balance by more than 0.01 (as
`balanceMismatch`), and succeeds on every wallet with non-negative balance
within the tolerance. -/
theorem save_validation (w : Wallet) :
    (w.balance < 0 → WalletRepository.save w = .error .negativeBalance) ∧
    (0 ≤ w.balance →
      1 / 100 < |w.balance - w.calculate_balance_from_transactions| →
      WalletRepository.save w = .error .balanceMismatch) ∧
    (0 ≤ w.balance →
      |w.balance - w.calculate_balance_from_transactions| ≤ 1 / 100 →
      WalletRepository.save w = .ok ()) := by
  refine ⟨fun h => ?_, fun h1 h2 => ?_, fun h1 h2 => ?_⟩
  · simp [WalletRepository.save, h]
  · have h2' : (100 : ℚ)⁻¹ <
        |w.balance - w.calculate_balance_from_transactions| := by
      rwa [← one_div]
    simp [WalletRepository.save, not_lt.mpr h1, h2']
  · have h2' : ¬ ((100 : ℚ)⁻¹ <
        |w.balance - w.calculate_balance_from_transactions|) := by
      rw [← one_div]
      exact not_lt.mpr h2
    simp [WalletRepository.save, not_lt.mpr h1, h2']

/-- Witness for C8: a wallet with balance −1 is rejected as negative; one
with balance 5 backed by a CREDIT 3 (deviation 2) is rejected as a
mismatch; one with balance 3 backed by a CREDIT 3 saves successfully. -/
theorem save_validation_witness :
    (WalletRepository.save ⟨1, 1, -1, []⟩ = .error .negativeBalance) ∧
    (WalletRepository.save ⟨1, 1, 5, [⟨1, .CREDIT, 3, none, "m"⟩]⟩ =
      .error .balanceMismatch) ∧
    (WalletRepository.save ⟨1, 1, 3, [⟨1, .CREDIT, 3, none, "m"⟩]⟩ =
      .ok ()) := by
  refine ⟨(save_validation ⟨1, 1, -1, []⟩).1 (by norm_num), ?_, ?_⟩
  · exact (save_validation ⟨1, 1, 5, [⟨1, .CREDIT, 3, none, "m"⟩]⟩).2.1
      (by norm_num)
      (by norm_num [Wallet.calculate_balance_from_transactions])
  · exact (save_validation ⟨1, 1, 3, [⟨1, .CREDIT, 3, none, "m"⟩]⟩).2.2
      (by norm_num)
      (by norm_num [Wallet.calculate_balance_from_transactions])

/-- Helper: the maximum of `[s+1, …, s+k]` computed by `foldr max 0`. -/
theorem foldr_max_range (k : Nat) :
    ∀ s : Nat, (List.range' (s + 1) (k + 1)).foldr max 0 = s + k + 1 := by
  induction k with
  | zero => intro s; simp [List.range']
  | succ k ih =>
    intro s
    rw [List.range'_succ]
    simp only [List.foldr_cons]
    have h := ih (s + 1)
    rw [h]
    omega

/-- Helper: `seqsFor` after a `save_event` append. -/
theorem seqsFor_save_event (rows : List EventRow) (aid : Nat) (aty : String)
    (aid' : Nat) (aty' : String) :
    seqsFor (save_event rows aid aty) aid' aty' =
      if aid' = aid ∧ aty' = aty then
        seqsFor rows aid' aty' ++ [lastSeq rows aid aty + 1]
      else
        seqsFor rows aid' aty' := by
  unfold save_event seqsFor
  rw [List.filter_append, List.map_append]
  by_cases h : aid' = aid ∧ aty' = aty
  · obtain ⟨h1, h2⟩ := h
    subst h1; subst h2
    simp
  · rw [if_neg h]
    have hn : aid ≠ aid' ∨ aty ≠ aty' := by
      rcases Decidable.em (aid' = aid) with h1 | h1
      · right
        intro h2
        exact h ⟨h1, h2.symm⟩
      · left
        intro h2
        exact h1 h2.symm
    have hempty : (List.filter
        (fun r => r.aggregate_id == aid' && r.aggregate_type == aty')
        [(⟨aid, aty, lastSeq rows aid aty + 1⟩ : EventRow)]) = [] := by
      rcases hn with hn | hn <;> simp [List.filter_cons, hn]
    rw [hempty]
    simp

/-- Helper: a gapless per-aggregate sequence assignment is preserved by
one `save_event`. -/
theorem save_event_preserves_gapless (rows : List EventRow)
    (hinv : ∀ aid aty, seqsFor rows aid aty =
      List.range' 1 (seqsFor rows aid aty).length)
    (a : Nat) (t : String) :
    ∀ aid aty, seqsFor (save_event rows a t) aid aty =
      List.range' 1 (seqsFor (save_event rows a t) aid aty).length := by
  intro aid aty
  rw [seqsFor_save_event]
  by_cases h : aid = a ∧ aty = t
  · rw [if_pos h]
    obtain ⟨h1, h2⟩ := h
    subst h1; subst h2
    have hrows := hinv aid aty
    cases hn : (seqsFor rows aid aty).length with
    | zero =>
      have : seqsFor rows aid aty = [] := List.length_eq_zero.mp hn
      rw [this]
      unfold lastSeq
      rw [this]
      simp [List.range']
    | succ n =>
      have hmax : lastSeq rows aid aty = n + 1 := by
        unfold lastSeq
        rw [hrows, hn]
        have := foldr_max_range n 0
        simpa using this
      rw [hmax, hrows, hn]
      have hcat : List.range' 1 (n + 2) =
          List.range' 1 (n + 1) ++ [n + 2] := by
        have hc := @List.range'_concat 1 1 (n + 1)
        have he1 : 1 + 1 * (n + 1) = n + 2 := by omega
        have he2 : n + 1 + 1 = n + 2 := by omega
        rw [he1, he2] at hc
        exact hc
      rw [← hcat]
      simp
  · rw [if_neg h]
    exact hinv aid aty

/-- Claim C6: replaying any list of `save_event` calls against an empty
event store leaves, for every aggregate `(id, type)`, exactly the
sequence numbers `[1, 2, …, k]` in insertion order — i.e. per-aggregate
sequence numbers are gapless, strictly increasing, and start at 1, with
each call assigned the previous maximum plus one. -/
theorem event_sequence_gapless (calls : List (Nat × String)) :
    ∀ aid aty, seqsFor (replayEvents calls) aid aty =
      List.range' 1 ((seqsFor (replayEvents calls) aid aty).length) := by
  have aux : ∀ (cs : List (Nat × String)) (rows : List EventRow),
      (∀ aid aty, seqsFor rows aid aty =
        List.range' 1 (seqsFor rows aid aty).length) →
      ∀ aid aty, seqsFor (cs.foldl (fun st c => save_event st c.1 c.2) rows)
          aid aty =
        List.range' 1 ((seqsFor
          (cs.foldl (fun st c => save_event st c.1 c.2) rows) aid aty).length) := by
    intro cs
    induction cs with
    | nil => intro rows hinv; simpa using hinv
    | cons c rest ih =>
      intro rows hinv
      simp only [List.foldl_cons]
      exact ih (save_event rows c.1 c.2)
        (save_event_preserves_gapless rows hinv c.1 c.2)
  intro aid aty
  unfold replayEvents
  exact aux calls [] (by intro a t; simp [seqsFor]) aid aty

/-- Claim C4: `Wallet.debit` fails exactly when `amount ≤ 0` (rejected as
non-positive) or the balance is below the amount (insufficient balance);
failure returns only an error, so the wallet value is untouched; success
appends exactly one DEBIT transaction of the requested amount and lowers
the balance by exactly that amount. -/
theorem debit_characterization (w : Wallet) (a : ℚ) (oid : Option Nat)
    (d : String) :
    (a ≤ 0 → w.debit a oid d = .error .amountNotPositive) ∧
    (0 < a → w.balance < a → w.debit a oid d = .error .insufficientBalance) ∧
    (0 < a → a ≤ w.balance →
      w.debit a oid d =
        .ok ({ w with balance := w.balance - a,
                      transactions :=
                        w.transactions ++ [⟨w.id, .DEBIT, a, oid, d⟩] },
             ⟨w.id, .DEBIT, a, oid, d⟩)) := by
  refine ⟨fun h1 => ?_, fun h1 h2 => ?_, fun h1 h2 => ?_⟩
  · simp [Wallet.debit, h1]
  · simp [Wallet.debit, not_le.mpr h1, h2]
  · simp [Wallet.debit, not_le.mpr h1, not_lt.mpr h2]

/-- Witness for C4: at a wallet with balance 5, a debit of 7 is rejected as
insufficient, a debit of 0 as non-positive, and a debit of 2 succeeds with
the stated effect. -/
theorem debit_characterization_witness :
    ((⟨1, 1, 5, []⟩ : Wallet).debit 0 none ("") = .error .amountNotPositive) ∧
    ((⟨1, 1, 5, []⟩ : Wallet).debit 7 none ("") = .error .insufficientBalance) ∧
    ((⟨1, 1, 5, []⟩ : Wallet).debit 2 none ("") =
      .ok (⟨1, 1, 3, [⟨1, .DEBIT, 2, none, ""⟩]⟩, ⟨1, .DEBIT, 2, none, ""⟩)) := by
  refine ⟨(debit_characterization ⟨1, 1, 5, []⟩ 0 none ("")).1 (by norm_num),
          (debit_characterization ⟨1, 1, 5, []⟩ 7 none ("")).2.1 (by norm_num)
            (by norm_num), ?_⟩
  have h := (debit_characterization ⟨1, 1, 5, []⟩ 2 none ("")).2.2
    (by norm_num) (by norm_num)
  norm_num at h
  exact h

/-- Counterexample to claim C7: a CANCELLED order is neither DRAFT nor PENDING, yet `Order.cancel`
succeeds on it, refuting "cancel succeeds exactly when the order status is
DRAFT or PENDING". -/
theorem cancel_cancelled_succeeds :
    (⟨3, 1, [], OrderStatus.CANCELLED⟩ : Order).status ≠ OrderStatus.DRAFT ∧
    (⟨3, 1, [], OrderStatus.CANCELLED⟩ : Order).status ≠ OrderStatus.PENDING ∧
    (⟨3, 1, [], OrderStatus.CANCELLED⟩ : Order).cancel =
      .ok (⟨3, 1, [], OrderStatus.CANCELLED⟩ : Order) := by
  refine ⟨by decide, by decide, ?_⟩
  simp [Order.cancel]

/-- Amended claim C7: `Order.cancel` succeeds exactly when the status is not
PAID and not REFUNDED (i.e. from DRAFT, PENDING, or already-CANCELLED),
setting the status to CANCELLED and changing nothing else; from PAID or
REFUNDED it is rejected, returning only an error. -/
theorem cancel_characterization (o : Order) :
    (o.status ≠ OrderStatus.PAID → o.status ≠ OrderStatus.REFUNDED →
      o.cancel = .ok { o with status := OrderStatus.CANCELLED }) ∧
    (o.status = OrderStatus.PAID ∨ o.status = OrderStatus.REFUNDED →
      o.cancel = .error .cancelTerminal) := by
  constructor
  · intro h1 h2
    simp [Order.cancel, h1, h2]
  · intro h
    simp [Order.cancel, h]

/-- Witness for C7: a PENDING order is cancelled successfully, a PAID order
is rejected. -/
theorem cancel_characterization_witness :
    (⟨4, 1, [], OrderStatus.PENDING⟩ : Order).cancel =
      .ok (⟨4, 1, [], OrderStatus.CANCELLED⟩ : Order) ∧
    (⟨4, 1, [], OrderStatus.PAID⟩ : Order).cancel = .error .cancelTerminal := by
  constructor
  · have h := (cancel_characterization ⟨4, 1, [], OrderStatus.PENDING⟩).1
      (by decide) (by decide)
    simpa using h
  · exact (cancel_characterization ⟨4, 1, [], OrderStatus.PAID⟩).2 (Or.inl rfl)

/-- Counterexample to claim C9 as stated: applying the WalletDebited
handler a second time, to the read-model row produced by its first
application, changes that row — `transactions_count` is incremented on
every application (1 after the first, 2 after the second). -/
theorem projector_replay_changes_row :
    handle_wallet_debited (some (handle_wallet_debited none 7 50 0)) 7 50 0 ≠
      handle_wallet_debited none 7 50 0 := by
  intro hco
  simp [handle_wallet_debited, WalletView.mk.injEq] at hco

/-- Amended claim C9: the OrderCreated, order-status, and WalletCreated
handlers are idempotent, but the WalletDebited and WalletCredited
handlers only set the balance idempotently (to the event's
`new_balance`) while incrementing `transactions_count` on every
application, so re-applying them changes the read-model row. -/
theorem projector_handlers_characterization
    (e : Option OrderSummary) (cid : Nat) (cname : String) (total : ℚ)
    (icount : Nat) (t : Nat) (v : Option WalletView) (wcid : Nat) (nb : ℚ) :
    (handle_order_created
        (some (handle_order_created e cid cname total icount t))
        cid cname total icount t =
      handle_order_created e cid cname total icount t) ∧
    (handle_order_paid (handle_order_paid e) = handle_order_paid e) ∧
    (handle_order_confirmed (handle_order_confirmed e) =
      handle_order_confirmed e) ∧
    (handle_order_refunded (handle_order_refunded e) =
      handle_order_refunded e) ∧
    (handle_order_cancelled (handle_order_cancelled e) =
      handle_order_cancelled e) ∧
    (handle_wallet_created (some (handle_wallet_created v wcid)) wcid =
      handle_wallet_created v wcid) ∧
    ((handle_wallet_debited (some (handle_wallet_debited v wcid nb t))
        wcid nb t).balance = (handle_wallet_debited v wcid nb t).balance ∧
     (handle_wallet_debited (some (handle_wallet_debited v wcid nb t))
        wcid nb t).transactions_count =
      (handle_wallet_debited v wcid nb t).transactions_count + 1) ∧
    ((handle_wallet_credited (some (handle_wallet_credited v wcid nb t))
        wcid nb t).balance = (handle_wallet_credited v wcid nb t).balance ∧
     (handle_wallet_credited (some (handle_wallet_credited v wcid nb t))
        wcid nb t).transactions_count =
      (handle_wallet_credited v wcid nb t).transactions_count + 1) := by
  refine ⟨?_, ?_, ?_, ?_, ?_, ?_, ⟨?_, ?_⟩, ⟨?_, ?_⟩⟩
  · cases e <;> simp [handle_order_created]
  · cases e <;> simp [handle_order_paid]
  · cases e <;> simp [handle_order_confirmed]
  · cases e <;> simp [handle_order_refunded]
  · cases e <;> simp [handle_order_cancelled]
  · cases v <;> simp [handle_wallet_created]
  · cases v <;> simp [handle_wallet_debited]
  · cases v <;> simp [handle_wallet_debited]
  · cases v <;> simp [handle_wallet_credited]
  · cases v <;> simp [handle_wallet_credited]

/-- Claim C5: for a mutating request carrying an idempotency key and
actor, a stored record with matching hash short-circuits to the cached
payload without executing; a stored record with a different hash
short-circuits to the 409 conflict without executing; no stored record
means the command is executed, and the record is persisted exactly when
the response status is 200. -/
theorem idempotency_dispatch (store : List IdempotencyRecord) (key : String)
    (user : Nat) (op : String) (hsh : String) (exec : HttpResponse) :
    (∀ r, findRecord store key user op = some r → r.request_hash = hsh →
      dispatchMutation store key user op hsh exec =
        (⟨200, r.response_payload⟩, store, false)) ∧
    (∀ r, findRecord store key user op = some r → r.request_hash ≠ hsh →
      dispatchMutation store key user op hsh exec =
        (conflictResponse, store, false)) ∧
    (findRecord store key user op = none → exec.status_code = 200 →
      dispatchMutation store key user op hsh exec =
        (exec, store ++ [⟨key, user, op, hsh, exec.body⟩], true)) ∧
    (findRecord store key user op = none → exec.status_code ≠ 200 →
      dispatchMutation store key user op hsh exec = (exec, store, true)) := by
  refine ⟨fun r hf hh => ?_, fun r hf hh => ?_, fun hf hs => ?_,
    fun hf hs => ?_⟩
  · unfold dispatchMutation
    rw [hf]
    simp [hh]
  · unfold dispatchMutation
    rw [hf]
    simp [hh]
  · unfold dispatchMutation
    rw [hf]
    simp [hs]
  · unfold dispatchMutation
    rw [hf]
    simp [hs]

/-- Witness for C5: over a store holding the record
`("k", 1, "CAPTURE_PAYMENT", "h1", "cached")`, a matching replay returns
the cached payload, a hash mismatch returns the 409 conflict, an unknown
key executes and persists on status 200, and executes without persisting
on status 400. -/
theorem idempotency_dispatch_witness :
    (dispatchMutation [⟨"k", 1, "CAPTURE_PAYMENT", "h1", "cached"⟩]
        "k" 1 "CAPTURE_PAYMENT" "h1" ⟨200, "fresh"⟩ =
      (⟨200, "cached"⟩, [⟨"k", 1, "CAPTURE_PAYMENT", "h1", "cached"⟩],
       false)) ∧
    (dispatchMutation [⟨"k", 1, "CAPTURE_PAYMENT", "h1", "cached"⟩]
        "k" 1 "CAPTURE_PAYMENT" "h2" ⟨200, "fresh"⟩ =
      (conflictResponse, [⟨"k", 1, "CAPTURE_PAYMENT", "h1", "cached"⟩],
       false)) ∧
    (dispatchMutation [⟨"k", 1, "CAPTURE_PAYMENT", "h1", "cached"⟩]
        "k2" 1 "CAPTURE_PAYMENT" "h3" ⟨200, "fresh"⟩ =
      (⟨200, "fresh"⟩,
       [⟨"k", 1, "CAPTURE_PAYMENT", "h1", "cached"⟩,
        ⟨"k2", 1, "CAPTURE_PAYMENT", "h3", "fresh"⟩], true)) ∧
    (dispatchMutation [⟨"k", 1, "CAPTURE_PAYMENT", "h1", "cached"⟩]
        "k2" 1 "CAPTURE_PAYMENT" "h3" ⟨400, "bad"⟩ =
      (⟨400, "bad"⟩, [⟨"k", 1, "CAPTURE_PAYMENT", "h1", "cached"⟩], true)) := by
  refine ⟨?_, ?_, ?_, ?_⟩
  · exact (idempotency_dispatch [⟨"k", 1, "CAPTURE_PAYMENT", "h1", "cached"⟩]
      "k" 1 "CAPTURE_PAYMENT" "h1" ⟨200, "fresh"⟩).1
      ⟨"k", 1, "CAPTURE_PAYMENT", "h1", "cached"⟩ rfl rfl
  · exact (idempotency_dispatch [⟨"k", 1, "CAPTURE_PAYMENT", "h1", "cached"⟩]
      "k" 1 "CAPTURE_PAYMENT" "h2" ⟨200, "fresh"⟩).2.1
      ⟨"k", 1, "CAPTURE_PAYMENT", "h1", "cached"⟩ rfl (by decide)
  · exact (idempotency_dispatch [⟨"k", 1, "CAPTURE_PAYMENT", "h1", "cached"⟩]
      "k2" 1 "CAPTURE_PAYMENT" "h3" ⟨200, "fresh"⟩).2.2.1 rfl rfl
  · exact (idempotency_dispatch [⟨"k", 1, "CAPTURE_PAYMENT", "h1", "cached"⟩]
      "k2" 1 "CAPTURE_PAYMENT" "h3" ⟨400, "bad"⟩).2.2.2 rfl (by decide)

/-- Claim C2: starting from a wallet holding 1000.00 and a draft order of
2 × 100.00 + 1 × 50.00 (total 250.00), `capture_payment` returns
`amount_debited = 250.00`, `bonus_credited = 12.50`, order status PAID and
wallet balance 762.50; the subsequent `refund_order` returns
`amount_refunded = 250.00` and order status REFUNDED (the wallet ending
back at 1000.00). -/
theorem capture_refund_end_to_end :
    c2Capture =
      .ok (⟨30, 20, [⟨1, 2, 100⟩, ⟨2, 1, 50⟩], .PAID⟩,
           ⟨10, 20, 1525 / 2,
            [⟨10, .CREDIT, 1000, none, "Initial"⟩,
             ⟨10, .DEBIT, 250, some 30, "Payment for order"⟩,
             ⟨10, .CREDIT, 25 / 2, some 30, "Bonus for order"⟩]⟩,
           ⟨30, "PAID", 250, 25 / 2⟩) ∧
    c2Refund =
      .ok (⟨30, 20, [⟨1, 2, 100⟩, ⟨2, 1, 50⟩], .REFUNDED⟩,
           ⟨10, 20, 1000,
            [⟨10, .CREDIT, 1000, none, "Initial"⟩,
             ⟨10, .DEBIT, 250, some 30, "Payment for order"⟩,
             ⟨10, .CREDIT, 25 / 2, some 30, "Bonus for order"⟩,
             ⟨10, .CREDIT, 250, some 30, "Refund for order"⟩,
             ⟨10, .DEBIT, 25 / 2, some 30, "Bonus compensation"⟩]⟩,
           ⟨30, "REFUNDED", 250⟩) := by
  have hc : c2Capture =
      .ok (⟨30, 20, [⟨1, 2, 100⟩, ⟨2, 1, 50⟩], .PAID⟩,
           ⟨10, 20, 1525 / 2,
            [⟨10, .CREDIT, 1000, none, "Initial"⟩,
             ⟨10, .DEBIT, 250, some 30, "Payment for order"⟩,
             ⟨10, .CREDIT, 25 / 2, some 30, "Bonus for order"⟩]⟩,
           ⟨30, "PAID", 250, 25 / 2⟩) := by
    norm_num [c2Capture, c2Order, c2Wallet, capture_payment, Order.confirm,
      Order.mark_paid, Order.total_amount, OrderItem.subtotal, Wallet.debit,
      Wallet.credit, WalletRepository.save,
      Wallet.calculate_balance_from_transactions, OrderStatus.value]
  refine ⟨hc, ?_⟩
  unfold c2Refund
  rw [hc]
  norm_num [refund_order, Order.mark_refunded, Order.total_amount,
    OrderItem.subtotal, Wallet.debit, Wallet.credit, WalletRepository.save,
    Wallet.calculate_balance_from_transactions, OrderStatus.value]

/-- Helper: successful `Order.confirm` inverted. -/
theorem confirm_ok {o o1 : Order} (h : o.confirm = .ok o1) :
    o.status = OrderStatus.DRAFT ∧
    o1 = { o with status := OrderStatus.PENDING } := by
  unfold Order.confirm at h
  split_ifs at h with h1 h2
  cases h
  exact ⟨not_not.mp h1, rfl⟩

/-- Helper: successful `Order.mark_paid` inverted. -/
theorem mark_paid_ok {o o1 : Order} (h : o.mark_paid = .ok o1) :
    o.status = OrderStatus.PENDING ∧
    o1 = { o with status := OrderStatus.PAID } := by
  unfold Order.mark_paid at h
  split_ifs at h with h1
  cases h
  exact ⟨not_not.mp h1, rfl⟩

/-- Helper: successful `Order.mark_refunded` inverted. -/
theorem mark_refunded_ok {o o1 : Order} (h : o.mark_refunded = .ok o1) :
    o.status = OrderStatus.PAID ∧
    o1 = { o with status := OrderStatus.REFUNDED } := by
  unfold Order.mark_refunded at h
  split_ifs at h with h1
  cases h
  exact ⟨not_not.mp h1, rfl⟩

/-- Helper: the wallet-save validation succeeds exactly within tolerance. -/
theorem save_ok_iff {w : Wallet} {u : Unit} :
    WalletRepository.save w = .ok u ↔
      0 ≤ w.balance ∧
      |w.balance - w.calculate_balance_from_transactions| ≤ 1 / 100 := by
  unfold WalletRepository.save
  split_ifs with h1 h2
  · constructor
    · intro hc
      cases hc
    · rintro ⟨ha, _⟩
      exact absurd h1 (not_lt.mpr ha)
  · constructor
    · intro hc
      cases hc
    · rintro ⟨_, hb⟩
      exact absurd h2 (not_lt.mpr hb)
  · simp only [not_lt] at h1 h2
    constructor
    · intro _
      exact ⟨h1, h2⟩
    · intro _
      rfl

/-- Helper: a failed `Wallet.credit` always reports a non-positive amount. -/
theorem credit_error {w : Wallet} {a : ℚ} {oid : Option Nat} {d : String}
    {e : Err} (h : w.credit a oid d = .error e) :
    a ≤ 0 ∧ e = .amountNotPositive := by
  unfold Wallet.credit at h
  split_ifs at h with h1
  · simp only [Except.error.injEq] at h
    exact ⟨h1, h.symm⟩

/-- Helper: a failed `Wallet.debit` reports either a non-positive amount or
an insufficient balance, the latter only when the balance is actually
below the amount. -/
theorem debit_error {w : Wallet} {a : ℚ} {oid : Option Nat} {d : String}
    {e : Err} (h : w.debit a oid d = .error e) :
    (a ≤ 0 ∧ e = .amountNotPositive) ∨
    (0 < a ∧ w.balance < a ∧ e = .insufficientBalance) := by
  unfold Wallet.debit at h
  split_ifs at h with h1 h2
  · simp only [Except.error.injEq] at h
    exact Or.inl ⟨h1, h.symm⟩
  · simp only [Except.error.injEq] at h
    exact Or.inr ⟨not_le.mp h1, h2, h.symm⟩

/-- Helper: a failed `WalletRepository.save` reports a negative balance or
a balance mismatch. -/
theorem save_error {w : Wallet} {e : Err}
    (h : WalletRepository.save w = .error e) :
    e = .negativeBalance ∨ e = .balanceMismatch := by
  unfold WalletRepository.save at h
  split_ifs at h with h1 h2
  · simp only [Except.error.injEq] at h
    exact Or.inl h.symm
  · simp only [Except.error.injEq] at h
    exact Or.inr h.symm

/-- Helper: the order total only depends on the item list. -/
theorem total_amount_set_status (o : Order) (s : OrderStatus) :
    (Order.mk o.id o.customer_id o.items s).total_amount = o.total_amount :=
  rfl

/-- Helper: the order total is determined by the item list. -/
theorem total_amount_congr {o o1 : Order} (h : o1.items = o.items) :
    o1.total_amount = o.total_amount := by
  unfold Order.total_amount
  rw [h]

/-- Helper: full inversion of a successful `capture_payment`: the captured
order is PAID with the same items and id, the order total was positive and
covered by the wallet, and the resulting wallet moved by `− total + bonus`
in both the declared and the replayed balance, ending non-negative and
within the save tolerance. -/
theorem capture_ok_inv {o : Order} {w : Wallet} {o1 : Order} {w1 : Wallet}
    {res : CaptureResult}
    (h : capture_payment o w = .ok (o1, w1, res)) :
    o1.status = OrderStatus.PAID ∧
    o1.items = o.items ∧
    o1.id = o.id ∧
    0 < o.total_amount ∧
    o.total_amount ≤ w.balance ∧
    w1.balance = w.balance - o.total_amount + o.total_amount * (5 / 100) ∧
    w1.calculate_balance_from_transactions =
      w.calculate_balance_from_transactions - o.total_amount +
        o.total_amount * (5 / 100) ∧
    0 ≤ w1.balance ∧
    |w1.balance - w1.calculate_balance_from_transactions| ≤ 1 / 100 := by
  unfold capture_payment at h
  split at h
  · cases h
  rename_i oC hconf
  split at h
  · cases h
  rename_i hpend
  split at h
  · cases h
  rename_i pd hdeb
  split at h
  · cases h
  rename_i pc hcred
  split at h
  · cases h
  rename_i oP hpaid
  split at h
  · cases h
  rename_i u hsave
  simp only [Except.ok.injEq, Prod.mk.injEq] at h
  obtain ⟨ho1, hw1, hres⟩ := h
  have hCitems : oC.items = o.items ∧ oC.id = o.id := by
    split at hconf
    · obtain ⟨_, hEq⟩ := confirm_ok hconf
      subst hEq
      exact ⟨rfl, rfl⟩
    · simp only [Except.ok.injEq] at hconf
      subst hconf
      exact ⟨rfl, rfl⟩
  have hTot : oC.total_amount = o.total_amount := total_amount_congr hCitems.1
  obtain ⟨hpos, hle, hpd⟩ := debit_ok_iff.mp hdeb
  subst hpd
  simp only at hcred
  obtain ⟨hbpos, hpc⟩ := credit_ok_iff.mp hcred
  subst hpc
  obtain ⟨_, hoP⟩ := mark_paid_ok hpaid
  subst hoP
  simp only at hsave hw1
  obtain ⟨hnn, htol⟩ := save_ok_iff.mp hsave
  subst ho1
  subst hw1
  refine ⟨rfl, hCitems.1, hCitems.2, ?_, ?_, ?_, ?_, ?_, ?_⟩
  · rw [← hTot]
    exact hpos
  · rw [← hTot]
    exact hle
  · simp only
    rw [hTot]
  · have hstep2 := calc_append_one
      (Wallet.mk w.id w.customer_id (w.balance - oC.total_amount)
        (w.transactions ++
          [⟨w.id, .DEBIT, oC.total_amount, some oC.id, "Payment for order"⟩]))
      w.id w.customer_id
      (w.balance - oC.total_amount + oC.total_amount * (5 / 100))
      ⟨w.id, .CREDIT, oC.total_amount * (5 / 100), some oC.id,
        "Bonus for order"⟩
    have hstep1 := calc_append_one w w.id w.customer_id
      (w.balance - oC.total_amount)
      ⟨w.id, .DEBIT, oC.total_amount, some oC.id, "Payment for order"⟩
    simp only at hstep1 hstep2
    rw [hstep2, hstep1, hTot]
  · simpa using hnn
  · simpa using htol

/-- Helper: a failed `Order.mark_refunded` always reports a non-PAID
status. -/
theorem mark_refunded_error {o : Order} {e : Err}
    (h : o.mark_refunded = .error e) : e = .notPaid := by
  unfold Order.mark_refunded at h
  split_ifs at h with h1
  simp only [Except.error.injEq] at h
  exact h.symm

/-- Claim C3: for every order successfully captured from a wallet with
pre-capture balance B, a subsequent successful `refund_order` on the
captured order and wallet restores the wallet balance to exactly B,
provided the wallet balance after crediting back the order total is at
least the 5% bonus amount (which is then debited back). -/
theorem capture_refund_roundtrip {o : Order} {w : Wallet} {o1 : Order}
    {w1 : Wallet} {res : CaptureResult}
    (hc : capture_payment o w = .ok (o1, w1, res))
    (hguard : o1.total_amount * (5 / 100) ≤ w1.balance + o1.total_amount) :
    ∃ o2 w2 r, refund_order o1 w1 = .ok (o2, w2, r) ∧
      w2.balance = w.balance := by
  obtain ⟨hst, hitems, hid, hpos, hle, hbal, hcalc, hnn0, htol0⟩ :=
    capture_ok_inv hc
  have hTot1 : o1.total_amount = o.total_amount := total_amount_congr hitems
  have hT : 0 < o1.total_amount := by
    rw [hTot1]
    exact hpos
  have hB : 0 < o1.total_amount * (5 / 100) := by positivity
  have hcredit : w1.credit o1.total_amount (some o1.id) "Refund for order" =
      .ok (⟨w1.id, w1.customer_id, w1.balance + o1.total_amount,
            w1.transactions ++
              [⟨w1.id, .CREDIT, o1.total_amount, some o1.id,
                "Refund for order"⟩]⟩,
           ⟨w1.id, .CREDIT, o1.total_amount, some o1.id,
            "Refund for order"⟩) :=
    credit_ok_iff.mpr ⟨hT, rfl⟩
  have hdebit : (Wallet.mk w1.id w1.customer_id
        (w1.balance + o1.total_amount)
        (w1.transactions ++
          [⟨w1.id, .CREDIT, o1.total_amount, some o1.id,
            "Refund for order"⟩])).debit (o1.total_amount * (5 / 100))
        (some o1.id) "Bonus compensation" =
      .ok (⟨w1.id, w1.customer_id,
            w1.balance + o1.total_amount - o1.total_amount * (5 / 100),
            (w1.transactions ++
              [⟨w1.id, .CREDIT, o1.total_amount, some o1.id,
                "Refund for order"⟩]) ++
              [⟨w1.id, .DEBIT, o1.total_amount * (5 / 100), some o1.id,
                "Bonus compensation"⟩]⟩,
           ⟨w1.id, .DEBIT, o1.total_amount * (5 / 100), some o1.id,
            "Bonus compensation"⟩) :=
    debit_ok_iff.mpr ⟨hB, hguard, rfl⟩
  have hmark : o1.mark_refunded =
      .ok ⟨o1.id, o1.customer_id, o1.items, OrderStatus.REFUNDED⟩ := by
    unfold Order.mark_refunded
    rw [if_neg (by simp [hst])]
  have hW3calc : (Wallet.mk w1.id w1.customer_id
        (w1.balance + o1.total_amount - o1.total_amount * (5 / 100))
        ((w1.transactions ++
          [⟨w1.id, .CREDIT, o1.total_amount, some o1.id,
            "Refund for order"⟩]) ++
          [⟨w1.id, .DEBIT, o1.total_amount * (5 / 100), some o1.id,
            "Bonus compensation"⟩])).calculate_balance_from_transactions =
      w1.calculate_balance_from_transactions + o1.total_amount -
        o1.total_amount * (5 / 100) := by
    have hstep2 := calc_append_one
      (Wallet.mk w1.id w1.customer_id (w1.balance + o1.total_amount)
        (w1.transactions ++
          [⟨w1.id, .CREDIT, o1.total_amount, some o1.id,
            "Refund for order"⟩]))
      w1.id w1.customer_id
      (w1.balance + o1.total_amount - o1.total_amount * (5 / 100))
      ⟨w1.id, .DEBIT, o1.total_amount * (5 / 100), some o1.id,
        "Bonus compensation"⟩
    have hstep1 := calc_append_one w1 w1.id w1.customer_id
      (w1.balance + o1.total_amount)
      ⟨w1.id, .CREDIT, o1.total_amount, some o1.id, "Refund for order"⟩
    simp only at hstep1 hstep2
    rw [hstep2, hstep1]
  have hsave : WalletRepository.save (Wallet.mk w1.id w1.customer_id
        (w1.balance + o1.total_amount - o1.total_amount * (5 / 100))
        ((w1.transactions ++
          [⟨w1.id, .CREDIT, o1.total_amount, some o1.id,
            "Refund for order"⟩]) ++
          [⟨w1.id, .DEBIT, o1.total_amount * (5 / 100), some o1.id,
            "Bonus compensation"⟩])) = .ok () := by
    apply save_ok_iff.mpr
    constructor
    · show 0 ≤ w1.balance + o1.total_amount - o1.total_amount * (5 / 100)
      rw [hbal, hTot1]
      have hwpos : 0 < w.balance := lt_of_lt_of_le hpos hle
      nlinarith [hwpos]
    · show |(w1.balance + o1.total_amount - o1.total_amount * (5 / 100)) -
          _| ≤ 1 / 100
      rw [hW3calc]
      have heq : (w1.balance + o1.total_amount -
          o1.total_amount * (5 / 100)) -
          (w1.calculate_balance_from_transactions + o1.total_amount -
            o1.total_amount * (5 / 100)) =
          w1.balance - w1.calculate_balance_from_transactions := by ring
      rw [heq]
      exact htol0
  refine ⟨⟨o1.id, o1.customer_id, o1.items, OrderStatus.REFUNDED⟩,
    ⟨w1.id, w1.customer_id,
     w1.balance + o1.total_amount - o1.total_amount * (5 / 100),
     (w1.transactions ++
       [⟨w1.id, .CREDIT, o1.total_amount, some o1.id,
         "Refund for order"⟩]) ++
       [⟨w1.id, .DEBIT, o1.total_amount * (5 / 100), some o1.id,
         "Bonus compensation"⟩]⟩,
    ⟨o1.id, "REFUNDED", o1.total_amount⟩, ?_, ?_⟩
  · unfold refund_order
    rw [if_neg (by simp [hst])]
    rw [hcredit]
    simp only [hdebit, hmark, hsave]
    rw [if_pos hguard]
    simp only [hdebit, hsave]
    simp [Order.total_amount, OrderStatus.value]
  · show w1.balance + o1.total_amount - o1.total_amount * (5 / 100) =
      w.balance
    rw [hbal, hTot1]
    ring

/-- Witness for C3: a concrete capture (balance 100, order total 40) whose
refund restores the balance to 100. -/
theorem capture_refund_roundtrip_witness :
    (capture_payment ⟨60, 50, [⟨5, 1, 40⟩], .DRAFT⟩
        ⟨40, 50, 100, [⟨40, .CREDIT, 100, none, "seed"⟩]⟩ =
      .ok (⟨60, 50, [⟨5, 1, 40⟩], .PAID⟩,
           ⟨40, 50, 62,
            [⟨40, .CREDIT, 100, none, "seed"⟩,
             ⟨40, .DEBIT, 40, some 60, "Payment for order"⟩,
             ⟨40, .CREDIT, 2, some 60, "Bonus for order"⟩]⟩,
           ⟨60, "PAID", 40, 2⟩)) ∧
    (∃ o2 w2 r,
      refund_order (⟨60, 50, [⟨5, 1, 40⟩], .PAID⟩ : Order)
          (⟨40, 50, 62,
            [⟨40, .CREDIT, 100, none, "seed"⟩,
             ⟨40, .DEBIT, 40, some 60, "Payment for order"⟩,
             ⟨40, .CREDIT, 2, some 60, "Bonus for order"⟩]⟩ : Wallet) =
        .ok (o2, w2, r) ∧
      w2.balance =
        (⟨40, 50, 100, [⟨40, .CREDIT, 100, none, "seed"⟩]⟩ : Wallet).balance) := by
  have hc : capture_payment ⟨60, 50, [⟨5, 1, 40⟩], .DRAFT⟩
      ⟨40, 50, 100, [⟨40, .CREDIT, 100, none, "seed"⟩]⟩ =
      .ok (⟨60, 50, [⟨5, 1, 40⟩], .PAID⟩,
           ⟨40, 50, 62,
            [⟨40, .CREDIT, 100, none, "seed"⟩,
             ⟨40, .DEBIT, 40, some 60, "Payment for order"⟩,
             ⟨40, .CREDIT, 2, some 60, "Bonus for order"⟩]⟩,
           ⟨60, "PAID", 40, 2⟩) := by
    norm_num [capture_payment, Order.confirm, Order.mark_paid,
      Order.total_amount, OrderItem.subtotal, Wallet.debit, Wallet.credit,
      WalletRepository.save, Wallet.calculate_balance_from_transactions,
      OrderStatus.value]
  exact ⟨hc, capture_refund_roundtrip hc
    (by norm_num [Order.total_amount, OrderItem.subtotal])⟩

/-- Claim C10: `refund_order` never fails with the insufficient-balance
error (the bonus debit runs only under the `wallet.balance >= bonus`
guard, which makes `Wallet.debit`'s insufficient branch unreachable); and
whenever the guard is false the refund still completes with only the
credit applied, leaving the wallet balance increased by the full order
total. -/
theorem refund_never_insufficient :
    (∀ (o : Order) (w : Wallet),
      refund_order o w ≠ .error Err.insufficientBalance) ∧
    (∀ (o : Order) (w : Wallet) (o2 : Order) (w2 : Wallet)
      (r : RefundResult),
      refund_order o w = .ok (o2, w2, r) →
      w.balance + o.total_amount < o.total_amount * (5 / 100) →
      w2.balance = w.balance + o.total_amount) := by
  constructor
  · intro o w hco
    unfold refund_order at hco
    by_cases hst : o.status ≠ OrderStatus.PAID
    · rw [if_pos hst] at hco
      simp at hco
    rw [if_neg hst] at hco
    split at hco
    · rename_i e hcred
      obtain ⟨_, he⟩ := credit_error hcred
      subst he
      simp at hco
    rename_i pc hcred
    split at hco
    · rename_i e hinner
      simp only [Except.error.injEq] at hco
      subst hco
      split at hinner
      · rename_i hg
        split at hinner
        · rename_i e2 hdeb2
          simp only [Except.error.injEq] at hinner
          subst hinner
          rcases debit_error hdeb2 with ⟨_, he2⟩ | ⟨_, hlt, he2⟩
          · cases he2
          · exact absurd hg (not_le.mpr hlt)
        · rename_i pd hdeb2
          cases hinner
      · cases hinner
    rename_i w3 hinner
    split at hco
    · rename_i e hmk
      have he := mark_refunded_error hmk
      subst he
      simp at hco
    rename_i oR hmk
    split at hco
    · rename_i e hsv
      rcases save_error hsv with he | he <;> (subst he; simp at hco)
    rename_i u hsv
    cases hco
  · intro o w o2 w2 r h hg
    unfold refund_order at h
    by_cases hst : o.status ≠ OrderStatus.PAID
    · rw [if_pos hst] at h
      cases h
    rw [if_neg hst] at h
    split at h
    · cases h
    rename_i pc hcred
    obtain ⟨hTpos, hpc⟩ := credit_ok_iff.mp hcred
    subst hpc
    split at h
    · cases h
    rename_i w3 hinner
    simp only at hinner
    rw [if_neg (not_le.mpr hg)] at hinner
    simp only [Except.ok.injEq] at hinner
    subst hinner
    split at h
    · cases h
    rename_i oR hmk
    split at h
    · cases h
    rename_i u hsv
    simp only [Except.ok.injEq, Prod.mk.injEq] at h
    obtain ⟨ho2, hw2, hr⟩ := h
    subst hw2
    simp

/-- Witness for C10: a wallet at −98 (one DEBIT 98 on record) refunding a
PAID order of total 100 completes — the guard 5 ≤ 2 is false, the bonus
debit is skipped — and ends at −98 + 100 = 2. -/
theorem refund_never_insufficient_witness :
    (refund_order (⟨70, 80, [⟨9, 1, 100⟩], .PAID⟩ : Order)
        (⟨90, 80, -98, [⟨90, .DEBIT, 98, none, "debt"⟩]⟩ : Wallet) =
      .ok (⟨70, 80, [⟨9, 1, 100⟩], .REFUNDED⟩,
           ⟨90, 80, 2,
            [⟨90, .DEBIT, 98, none, "debt"⟩,
             ⟨90, .CREDIT, 100, some 70, "Refund for order"⟩]⟩,
           ⟨70, "REFUNDED", 100⟩)) ∧
    ((⟨90, 80, -98, [⟨90, .DEBIT, 98, none, "debt"⟩]⟩ : Wallet).balance +
        (⟨70, 80, [⟨9, 1, 100⟩], .PAID⟩ : Order).total_amount <
      (⟨70, 80, [⟨9, 1, 100⟩], .PAID⟩ : Order).total_amount * (5 / 100)) ∧
    ((⟨90, 80, 2,
       [⟨90, .DEBIT, 98, none, "debt"⟩,
        ⟨90, .CREDIT, 100, some 70, "Refund for order"⟩]⟩ : Wallet).balance =
      (⟨90, 80, -98, [⟨90, .DEBIT, 98, none, "debt"⟩]⟩ : Wallet).balance +
        (⟨70, 80, [⟨9, 1, 100⟩], .PAID⟩ : Order).total_amount) := by
  have h : refund_order (⟨70, 80, [⟨9, 1, 100⟩], .PAID⟩ : Order)
      (⟨90, 80, -98, [⟨90, .DEBIT, 98, none, "debt"⟩]⟩ : Wallet) =
      .ok (⟨70, 80, [⟨9, 1, 100⟩], .REFUNDED⟩,
           ⟨90, 80, 2,
            [⟨90, .DEBIT, 98, none, "debt"⟩,
             ⟨90, .CREDIT, 100, some 70, "Refund for order"⟩]⟩,
           ⟨70, "REFUNDED", 100⟩) := by
    norm_num [refund_order, Order.mark_refunded, Order.total_amount,
      OrderItem.subtotal, Wallet.debit, Wallet.credit,
      WalletRepository.save, Wallet.calculate_balance_from_transactions,
      OrderStatus.value]
  have hg : (⟨90, 80, -98, [⟨90, .DEBIT, 98, none, "debt"⟩]⟩ :
        Wallet).balance +
      (⟨70, 80, [⟨9, 1, 100⟩], .PAID⟩ : Order).total_amount <
      (⟨70, 80, [⟨9, 1, 100⟩], .PAID⟩ : Order).total_amount * (5 / 100) := by
    norm_num [Order.total_amount, OrderItem.subtotal]
  exact ⟨h, hg, refund_never_insufficient.2 _ _ _ _ _ h hg⟩

end OrdersWallet
